import Mathlib

/-!
Shallow embedding of the OAuth Authorization and Token Lifecycle Manager
of the wrapped proxy (source file: the OAuthManager class).

Network responses, the wall clock and the session file are modelled as an
explicit environment record (`AuthEnv`); manager fields `metadata` and
`session` as an explicit state record (`MgrState`); thrown JavaScript
errors as `Except JsError`; side effects (which endpoints were called,
whether the callback listener was started or scheduled for close, what was
written to the session file) as an `Effects` record returned alongside the
result.  JavaScript truthiness of optional numbers/strings is modelled
explicitly (`numTruthy`, `strTruthy`), since the source guards with
`if (x)` rather than presence checks.
-/

namespace Mcp

/-- OAuth server metadata (RFC 8414), fields the manager reads. -/
structure OAuthMetadata where
  issuer : Option String := none
  authorization_endpoint : String
  token_endpoint : String
  registration_endpoint : Option String := none
  deriving DecidableEq

/-- OAuth client information. -/
structure OAuthClientInfo where
  client_id : String
  client_secret : Option String := none
  deriving DecidableEq

/-- OAuth token response. -/
structure OAuthTokenResponse where
  access_token : String
  token_type : String
  expires_in : Option Nat := none
  refresh_token : Option String := none
  scope : Option String := none
  deriving DecidableEq

/-- A persisted session record as it comes back from JSON.parse.  The
source casts the parsed value with `as OAuthSession` without validating,
so every field may be absent; times are epoch milliseconds. -/
structure StoredSession where
  clientInfo : Option OAuthClientInfo := none
  tokens : Option OAuthTokenResponse := none
  expiresAt : Option Nat := none
  deriving DecidableEq

/-- State of the session file on disk. `invalidJson` is a record whose
content makes JSON.parse throw. -/
inductive SessionFile
  | missing
  | invalidJson
  | record (s : StoredSession)
  deriving DecidableEq

/-- JavaScript truthiness of an optional number (undefined and 0 are falsy). -/
def numTruthy : Option Nat → Bool
  | none => false
  | some n => n != 0

/-- JavaScript truthiness of an optional string (undefined and the empty
string are falsy). -/
def strTruthy : Option String → Bool
  | none => false
  | some s => s != ""

/-- OAuthManager.loadSession: missing file gives undefined; a parse error
is caught and gives undefined; an expired record
(`session.expiresAt && Date.now() >= session.expiresAt`) gives undefined;
otherwise the parsed record is returned as-is, without field validation. -/
def loadSession (now : Nat) (file : SessionFile) : Option StoredSession :=
  match file with
  | .missing => none
  | .invalidJson => none
  | .record s =>
    if numTruthy s.expiresAt = true ∧ s.expiresAt.getD 0 ≤ now then none
    else some s

example : loadSession 5 (.record { expiresAt := some 9 }) = some { expiresAt := some 9 } := by decide

example : loadSession 9 (.record { expiresAt := some 9 }) = none := by decide

/-- OAuth configuration after the constructor filled in defaults.  The
source keeps `serverUrl` whole and splits it with `new URL` in
getAuthBaseUrl; the split into protocol and host is taken as given here. -/
structure OAuthConfig where
  serverProtocol : String
  serverHost : String
  callbackHost : String := "localhost"
  callbackPort : Nat := 3334
  staticClientInfo : Option OAuthClientInfo := none
  deriving DecidableEq

/-- OAuthManager.getAuthBaseUrl: protocol + // + host of the server URL. -/
def getAuthBaseUrl (c : OAuthConfig) : String :=
  c.serverProtocol ++ "//" ++ c.serverHost

/-- Outcome of one fetch call: the connection fails (fetch rejects), the
response is non-ok with the given body text, the response is ok but the
body fails to parse as JSON, or the response is ok and parses to a value. -/
inductive FetchOutcome (α : Type)
  | networkError
  | httpError (body : String)
  | malformedBody
  | ok (value : α)
  deriving DecidableEq

/-- A thrown JavaScript error: a TypeError from reading a property of
undefined, a rejected fetch, a JSON parse failure, or an Error constructed
with a message. -/
inductive JsError
  | typeError
  | fetchFailed
  | jsonError
  | error (msg : String)
  deriving DecidableEq

/-- What reaches the callback listener: either no request within the
300000 ms timeout, or one request with optional code and error query
parameters. -/
inductive CallbackOutcome
  | timeout
  | request (code : Option String) (error : Option String)
  deriving DecidableEq

/-- The environment one manager call runs in: the clock, the session file,
and the response each network endpoint would give if called. -/
structure AuthEnv where
  now : Nat
  file : SessionFile
  discovery : FetchOutcome OAuthMetadata
  registration : FetchOutcome OAuthClientInfo
  callback : CallbackOutcome
  exchange : FetchOutcome OAuthTokenResponse
  refresh : FetchOutcome OAuthTokenResponse
  deriving DecidableEq

/-- The manager's mutable fields `metadata` and `session`. -/
structure MgrState where
  metadata : Option OAuthMetadata := none
  session : Option StoredSession := none
  deriving DecidableEq

/-- Observable side effects of one manager call.  `savedRecord` is the
record written to the session file by saveSession, if any; all other
fields say whether the corresponding network action happened.
`listenerCloseScheduled` records whether `server.close()` was scheduled. -/
structure Effects where
  discoveryCalled : Bool := false
  registrationCalled : Bool := false
  listenerStarted : Bool := false
  listenerCloseScheduled : Bool := false
  exchangeCalled : Bool := false
  refreshAttempted : Bool := false
  refreshEndpointCalled : Bool := false
  savedRecord : Option StoredSession := none
  deriving DecidableEq

/-- Result of a public manager call: the returned value or thrown error,
the manager state afterwards, and the side effects performed. -/
structure AuthResult (α : Type) where
  result : Except JsError α
  state : MgrState
  effects : Effects

/-- The fallback metadata synthesized from the base address when discovery
fails (the default endpoints). -/
def fallbackMetadata (c : OAuthConfig) : OAuthMetadata :=
  { authorization_endpoint := getAuthBaseUrl c ++ "/authorize"
    token_endpoint := getAuthBaseUrl c ++ "/token"
    registration_endpoint := some (getAuthBaseUrl c ++ "/register") }

/-- OAuthManager.discoverMetadata: on an ok response that parses, store
and return the parsed metadata; on any failure (fetch rejection, non-ok
status, malformed body) fall back to the default endpoints.  Never
throws. -/
def discoverMetadata (c : OAuthConfig) (st : MgrState) (out : FetchOutcome OAuthMetadata) :
    OAuthMetadata × MgrState :=
  match out with
  | .ok m => (m, { st with metadata := some m })
  | _ => (fallbackMetadata c, { st with metadata := some (fallbackMetadata c) })

/-- Result of registerClient: the outcome and whether the registration
endpoint was actually called. -/
structure RegisterResult where
  result : Except JsError OAuthClientInfo
  endpointCalled : Bool

/-- OAuthManager.registerClient: throws without any request if the
metadata's registration endpoint is falsy
(`if (!metadata.registration_endpoint)`, so an absent or empty endpoint
both throw the not-supported error); otherwise POSTs and either returns
the parsed client info or throws with the response body text. -/
def registerClient (metadata : OAuthMetadata) (out : FetchOutcome OAuthClientInfo) :
    RegisterResult :=
  if strTruthy metadata.registration_endpoint = false then
    { result := .error (.error "Dynamic client registration not supported by server")
      endpointCalled := false }
  else
    match out with
    | .networkError => { result := .error .fetchFailed, endpointCalled := true }
    | .httpError body =>
      { result := .error (.error ("Client registration failed: " ++ body))
        endpointCalled := true }
    | .malformedBody => { result := .error .jsonError, endpointCalled := true }
    | .ok c => { result := .ok c, endpointCalled := true }

/-- Result of performAuthorizationFlow: the outcome plus what happened to
the local callback listener and the token endpoint. -/
structure FlowResult where
  result : Except JsError OAuthTokenResponse
  listenerStarted : Bool
  listenerCloseScheduled : Bool
  exchangeCalled : Bool

/-- OAuthManager.performAuthorizationFlow: starts the local listener and
waits.  On timeout the promise rejects with Authorization timeout; note
that `server.close()` is scheduled only inside the /callback handler, so
on the timeout path the listener is never closed.  A request with a
truthy error parameter rejects; a truthy code resolves and the code is
exchanged at the token endpoint; a request with neither rejects with a
missing-code error.  The handler schedules the listener close in every
request branch. -/
def performAuthorizationFlow (cb : CallbackOutcome)
    (exch : FetchOutcome OAuthTokenResponse) : FlowResult :=
  match cb with
  | .timeout =>
    { result := .error (.error "Authorization timeout")
      listenerStarted := true, listenerCloseScheduled := false, exchangeCalled := false }
  | .request code err =>
    if strTruthy err = true then
      { result := .error (.error ("Authorization failed: " ++ err.getD ""))
        listenerStarted := true, listenerCloseScheduled := true, exchangeCalled := false }
    else if strTruthy code = true then
      { listenerStarted := true, listenerCloseScheduled := true, exchangeCalled := true
        result :=
          match exch with
          | .networkError => .error .fetchFailed
          | .httpError body => .error (.error ("Token exchange failed: " ++ body))
          | .malformedBody => .error .jsonError
          | .ok tokens => .ok tokens }
    else
      { result := .error (.error "Invalid callback: missing code")
        listenerStarted := true, listenerCloseScheduled := true, exchangeCalled := false }

/-- Result of refreshAccessToken: the outcome and whether the token
endpoint was actually called. -/
structure RefreshResult where
  result : Except JsError OAuthTokenResponse
  endpointCalled : Bool

/-- OAuthManager.refreshAccessToken: throws before any network request if
metadata or session is unset; reading `session.tokens.refresh_token` on a
record without tokens is a TypeError; a falsy refresh token throws; the
request body reads `session.clientInfo.client_id` (TypeError if clientInfo
is absent); otherwise the token endpoint is called and a non-ok response
throws with the body text. -/
def refreshAccessToken (st : MgrState) (out : FetchOutcome OAuthTokenResponse) :
    RefreshResult :=
  match st.metadata, st.session with
  | none, _ =>
    { result := .error (.error "Cannot refresh token: no active session"), endpointCalled := false }
  | some _, none =>
    { result := .error (.error "Cannot refresh token: no active session"), endpointCalled := false }
  | some _, some s =>
    match s.tokens with
    | none => { result := .error .typeError, endpointCalled := false }
    | some t =>
      if strTruthy t.refresh_token = false then
        { result := .error (.error "No refresh token available"), endpointCalled := false }
      else
        match s.clientInfo with
        | none => { result := .error .typeError, endpointCalled := false }
        | some _ =>
          match out with
          | .networkError => { result := .error .fetchFailed, endpointCalled := true }
          | .httpError body =>
            { result := .error (.error ("Token refresh failed: " ++ body)), endpointCalled := true }
          | .malformedBody => { result := .error .jsonError, endpointCalled := true }
          | .ok tokens => { result := .ok tokens, endpointCalled := true }

/-- Expiry instant computed after a token response:
`tokens.expires_in ? Date.now() + tokens.expires_in * 1000 : undefined`
(an expires_in of 0 is falsy and yields undefined). -/
def computeExpiresAt (now : Nat) (expires_in : Option Nat) : Option Nat :=
  if numTruthy expires_in = true then some (now + expires_in.getD 0 * 1000) else none

/-- OAuthManager.authorize: load the saved session; if present return its
access token at once (reading `session.tokens.access_token`, a TypeError
when the record has no tokens field) with no network activity and no
write.  Otherwise discover metadata, use the static client info or
register one (any registration error is caught and replaced by a generic
error), run the authorization flow, compute the expiry, save the new
session and return its access token. -/
def authorize (c : OAuthConfig) (st : MgrState) (env : AuthEnv) : AuthResult String :=
  match loadSession env.now env.file with
  | some s =>
    match s.tokens with
    | none => { result := .error .typeError, state := { st with session := some s }, effects := {} }
    | some t =>
      { result := .ok t.access_token, state := { st with session := some s }, effects := {} }
  | none =>
    let st1 := { st with session := (none : Option StoredSession) }
    let dm := discoverMetadata c st1 env.discovery
    let reg : RegisterResult :=
      match c.staticClientInfo with
      | some ci => { result := .ok ci, endpointCalled := false }
      | none => registerClient dm.1 env.registration
    match reg.result with
    | .error _ =>
      { result := .error (.error "OAuth client registration failed and no static client info provided")
        state := dm.2
        effects := { discoveryCalled := true, registrationCalled := reg.endpointCalled } }
    | .ok clientInfo =>
      let flow := performAuthorizationFlow env.callback env.exchange
      match flow.result with
      | .error e =>
        { result := .error e
          state := dm.2
          effects := { discoveryCalled := true, registrationCalled := reg.endpointCalled
                       listenerStarted := flow.listenerStarted
                       listenerCloseScheduled := flow.listenerCloseScheduled
                       exchangeCalled := flow.exchangeCalled } }
      | .ok tokens =>
        let sess : StoredSession :=
          { clientInfo := some clientInfo, tokens := some tokens
            expiresAt := computeExpiresAt env.now tokens.expires_in }
        { result := .ok tokens.access_token
          state := { dm.2 with session := some sess }
          effects := { discoveryCalled := true, registrationCalled := reg.endpointCalled
                       listenerStarted := true, listenerCloseScheduled := true
                       exchangeCalled := true, savedRecord := some sess } }

/-- OAuthManager.getAccessToken: with no session in memory, delegate to
authorize.  With a session whose expiresAt is truthy and within 300000 ms
(`Date.now() >= expiresAt - 300000`), try a refresh: on success update the
session, save it, and return the new access token; on any thrown error
fall back to authorize.  Otherwise return the cached access token with no
side effects. -/
def getAccessToken (c : OAuthConfig) (st : MgrState) (env : AuthEnv) : AuthResult String :=
  match st.session with
  | none => authorize c st env
  | some s =>
    if numTruthy s.expiresAt = true ∧ s.expiresAt.getD 0 - 300000 ≤ env.now then
      let ref := refreshAccessToken st env.refresh
      match ref.result with
      | .ok tokens =>
        let s2 : StoredSession :=
          { s with tokens := some tokens, expiresAt := computeExpiresAt env.now tokens.expires_in }
        { result := .ok tokens.access_token
          state := { st with session := some s2 }
          effects := { refreshAttempted := true, refreshEndpointCalled := ref.endpointCalled
                       savedRecord := some s2 } }
      | .error _ =>
        let a := authorize c st env
        { a with effects := { a.effects with
                              refreshAttempted := true,
                              refreshEndpointCalled := ref.endpointCalled } }
    else
      match s.tokens with
      | none => { result := .error .typeError, state := st, effects := {} }
      | some t => { result := .ok t.access_token, state := st, effects := {} }

/-- Results of n successive authorize calls, threading the manager state. -/
def authorizeN (c : OAuthConfig) (env : AuthEnv) : Nat → MgrState → List (AuthResult String)
  | 0, _ => []
  | n + 1, st =>
    let a := authorize c st env
    a :: authorizeN c env n a.state

/-- The base64url alphabet (RFC 4648 section 5), used by the node
base64url encoding. -/
def b64urlAlphabet : List Char :=
  "ABCDEFGHIJKLMNOPQRSTUVWXYZabcdefghijklmnopqrstuvwxyz0123456789-_".data

/-- Character of a 6-bit value in the base64url alphabet. -/
def b64c (n : Nat) : Char := b64urlAlphabet.getD n 'A'

/-- 6-bit value of a base64url character. -/
def b64v (ch : Char) : Nat := b64urlAlphabet.indexOf ch

/-- Unpadded base64url encoding of a byte list, as produced by
Buffer.toString with the base64url encoding: each 3-byte group becomes 4
characters, a 1- or 2-byte tail becomes 2 or 3 characters, no padding. -/
def base64urlEncode : List Nat → List Char
  | [] => []
  | [b1] => [b64c (b1 / 4), b64c (b1 % 4 * 16)]
  | [b1, b2] => [b64c (b1 / 4), b64c (b1 % 4 * 16 + b2 / 16), b64c (b2 % 16 * 4)]
  | b1 :: b2 :: b3 :: rest =>
    b64c (b1 / 4) :: b64c (b1 % 4 * 16 + b2 / 16) :: b64c (b2 % 16 * 4 + b3 / 64) ::
      b64c (b3 % 64) :: base64urlEncode rest

/-- Inverse of the unpadded base64url encoding (on well-formed input). -/
def base64urlDecode : List Char → List Nat
  | [] => []
  | [_] => []
  | [c1, c2] => [b64v c1 * 4 + b64v c2 / 16]
  | [c1, c2, c3] => [b64v c1 * 4 + b64v c2 / 16, b64v c2 % 16 * 16 + b64v c3 / 4]
  | c1 :: c2 :: c3 :: c4 :: rest =>
    (b64v c1 * 4 + b64v c2 / 16) :: (b64v c2 % 16 * 16 + b64v c3 / 4) ::
      (b64v c3 % 4 * 64 + b64v c4) :: base64urlDecode rest

theorem b64v_b64c : ∀ n < 64, b64v (b64c n) = n := by decide

theorem base64url_roundtrip :
    ∀ bs : List Nat, (∀ b ∈ bs, b < 256) → base64urlDecode (base64urlEncode bs) = bs
  | [], _ => rfl
  | [b1], h => by
    have hb1 : b1 < 256 := h b1 (by simp)
    simp only [base64urlEncode, base64urlDecode]
    rw [b64v_b64c _ (by omega), b64v_b64c _ (by omega)]
    simp only [List.cons.injEq, and_true]
    omega
  | [b1, b2], h => by
    have hb1 : b1 < 256 := h b1 (by simp)
    have hb2 : b2 < 256 := h b2 (by simp)
    simp only [base64urlEncode, base64urlDecode]
    rw [b64v_b64c _ (by omega), b64v_b64c _ (by omega), b64v_b64c _ (by omega)]
    simp only [List.cons.injEq, and_true]
    omega
  | b1 :: b2 :: b3 :: rest, h => by
    have hb1 : b1 < 256 := h b1 (by simp)
    have hb2 : b2 < 256 := h b2 (by simp)
    have hb3 : b3 < 256 := h b3 (by simp)
    have ih := base64url_roundtrip rest (fun b hb => h b (by simp [hb]))
    simp only [base64urlEncode, base64urlDecode]
    rw [b64v_b64c _ (by omega), b64v_b64c _ (by omega), b64v_b64c _ (by omega),
      b64v_b64c _ (by omega), ih]
    simp only [List.cons.injEq, and_true]
    refine ⟨by omega, by omega, by omega⟩

theorem base64urlEncode_inj {bs1 bs2 : List Nat} (h1 : ∀ b ∈ bs1, b < 256)
    (h2 : ∀ b ∈ bs2, b < 256) (he : base64urlEncode bs1 = base64urlEncode bs2) :
    bs1 = bs2 := by
  have r1 := base64url_roundtrip bs1 h1
  have r2 := base64url_roundtrip bs2 h2
  rw [he, r2] at r1
  exact r1.symm

/-- A verifier/challenge pair. -/
structure PKCEPair where
  verifier : String
  challenge : String
  deriving DecidableEq

/-- generatePKCE: the verifier is the base64url encoding of the 32 bytes
randomBytes returned (modelled as the entropy argument) and the challenge
is the base64url encoding of the SHA-256 digest of the verifier (the
digest function of the crypto library is the sha256 argument). -/
def generatePKCE (entropy : List Nat) (sha256 : String → List Nat) : PKCEPair :=
  let verifier := String.mk (base64urlEncode entropy)
  let challenge := String.mk (base64urlEncode (sha256 verifier))
  { verifier := verifier, challenge := challenge }

/-- S256 validation as a server would check it: the challenge equals the
base64url encoding of the SHA-256 digest of the verifier. -/
def validatesS256 (verifier challenge : String) (sha256 : String → List Nat) : Prop :=
  challenge = String.mk (base64urlEncode (sha256 verifier))

/-! Concrete fixtures used by counterexamples and witnesses. -/

def clientEx : OAuthClientInfo := { client_id := "client-1" }

def metadataEx : OAuthMetadata :=
  { authorization_endpoint := "https://auth.example.com/oauth/authorize"
    token_endpoint := "https://auth.example.com/oauth/token"
    registration_endpoint := some "https://auth.example.com/oauth/register" }

def tokensEx : OAuthTokenResponse :=
  { access_token := "fresh-token", token_type := "Bearer"
    expires_in := some 3600, refresh_token := some "refresh-1" }

def cfgEx : OAuthConfig := { serverProtocol := "https:", serverHost := "mcp.example.com" }

def envEx : AuthEnv :=
  { now := 1000000000, file := .missing, discovery := .ok metadataEx
    registration := .ok clientEx, callback := .request (some "authcode") none
    exchange := .ok tokensEx, refresh := .ok tokensEx }

/-- C1: the claim says a persisted record missing a required field (for
example no tokens or no clientInfo) is treated identically to a missing
record, with loadSession returning absent and authorize performing a full
authorization.  The code does not validate fields after JSON.parse: on the
record that parses to an empty object, loadSession returns the partial
record, and authorize then throws a TypeError reading
session.tokens.access_token — no discovery is performed and no listener is
started, so no full authorization happens. -/
theorem c1_corrupt_record_not_discarded :
    loadSession 1000000000 (SessionFile.record {}) = some {} ∧
    (authorize cfgEx {} { envEx with file := .record {} }).result =
      .error .typeError ∧
    (authorize cfgEx {} { envEx with file := .record {} }).effects.discoveryCalled = false ∧
    (authorize cfgEx {} { envEx with file := .record {} }).effects.listenerStarted = false :=
  ⟨rfl, rfl, rfl, rfl⟩

/-- C2: on timeout, authorize fails with the Authorization timeout error,
but the listener is NOT torn down: the `server.close()` call is scheduled
only inside the /callback request handler, so only the code, error and
missing-code request paths schedule the close; the timeout path leaves
the listener bound, contradicting the claim that after resolution by any
path the port can be re-bound. -/
theorem c2_timeout_listener_not_torn_down :
    (performAuthorizationFlow .timeout (.ok tokensEx)).result =
      .error (.error "Authorization timeout") ∧
    (performAuthorizationFlow .timeout (.ok tokensEx)).listenerStarted = true ∧
    (performAuthorizationFlow .timeout (.ok tokensEx)).listenerCloseScheduled = false ∧
    (performAuthorizationFlow (.request (some "authcode") none) (.ok tokensEx)).listenerCloseScheduled
      = true ∧
    (performAuthorizationFlow (.request none (some "denied")) (.ok tokensEx)).listenerCloseScheduled
      = true ∧
    (authorize cfgEx {} { envEx with callback := .timeout }).result =
      .error (.error "Authorization timeout") ∧
    (authorize cfgEx {} { envEx with callback := .timeout }).effects.listenerStarted = true ∧
    (authorize cfgEx {} { envEx with callback := .timeout }).effects.listenerCloseScheduled = false :=
  ⟨rfl, rfl, rfl, rfl, rfl, rfl, rfl, rfl⟩

/-- C6: whenever the discovery fetch does not yield an ok parsed response
(network error, non-success status, malformed body), discoverMetadata
returns exactly the fallback metadata synthesized from the base address
with the suffixes /authorize, /token and /register, stores it, and never
propagates the failure (the function is total and throws nothing). -/
theorem c6_discovery_fallback (c : OAuthConfig) (st : MgrState)
    (out : FetchOutcome OAuthMetadata) (hfail : ∀ m, out ≠ FetchOutcome.ok m) :
    (discoverMetadata c st out).1 = fallbackMetadata c ∧
    (discoverMetadata c st out).2 = { st with metadata := some (fallbackMetadata c) } ∧
    (fallbackMetadata c).authorization_endpoint = getAuthBaseUrl c ++ "/authorize" ∧
    (fallbackMetadata c).token_endpoint = getAuthBaseUrl c ++ "/token" ∧
    (fallbackMetadata c).registration_endpoint = some (getAuthBaseUrl c ++ "/register") := by
  cases out with
  | ok m => exact absurd rfl (hfail m)
  | networkError => exact ⟨rfl, rfl, rfl, rfl, rfl⟩
  | httpError body => exact ⟨rfl, rfl, rfl, rfl, rfl⟩
  | malformedBody => exact ⟨rfl, rfl, rfl, rfl, rfl⟩

/-- Witness for C6 at a concrete failing discovery outcome. -/
theorem c6_discovery_fallback_witness :
    (discoverMetadata cfgEx {} FetchOutcome.networkError).1 = fallbackMetadata cfgEx ∧
    (discoverMetadata cfgEx {} FetchOutcome.networkError).2 =
      { ({} : MgrState) with metadata := some (fallbackMetadata cfgEx) } ∧
    (fallbackMetadata cfgEx).authorization_endpoint = getAuthBaseUrl cfgEx ++ "/authorize" ∧
    (fallbackMetadata cfgEx).token_endpoint = getAuthBaseUrl cfgEx ++ "/token" ∧
    (fallbackMetadata cfgEx).registration_endpoint = some (getAuthBaseUrl cfgEx ++ "/register") :=
  c6_discovery_fallback cfgEx {} FetchOutcome.networkError (fun _ h => nomatch h)

/-- C7: for any 32-byte entropy outputs of the random source, the verifier
is the URL-safe base64 encoding of those bytes, the challenge is the
URL-safe base64 encoding of the SHA-256 digest of the verifier, so the
pair always validates under S256; and two generation calls whose entropy
differs produce different verifiers. -/
theorem c7_pkce_roundtrip (e1 e2 : List Nat) (dgst : String → List Nat)
    (_hl1 : e1.length = 32) (hb1 : ∀ b ∈ e1, b < 256)
    (_hl2 : e2.length = 32) (hb2 : ∀ b ∈ e2, b < 256) (hne : e1 ≠ e2) :
    (generatePKCE e1 dgst).verifier = String.mk (base64urlEncode e1) ∧
    validatesS256 (generatePKCE e1 dgst).verifier (generatePKCE e1 dgst).challenge dgst ∧
    (generatePKCE e1 dgst).verifier ≠ (generatePKCE e2 dgst).verifier := by
  refine ⟨rfl, rfl, fun hv => hne ?_⟩
  exact base64urlEncode_inj hb1 hb2 (congrArg String.data hv)

/-- Witness for C7 at two concrete 32-byte entropy values. -/
theorem c7_pkce_roundtrip_witness :
    (generatePKCE (List.range 32) (fun _ => [])).verifier =
      String.mk (base64urlEncode (List.range 32)) ∧
    validatesS256 (generatePKCE (List.range 32) (fun _ => [])).verifier
      (generatePKCE (List.range 32) (fun _ => [])).challenge (fun _ => []) ∧
    (generatePKCE (List.range 32) (fun _ => [])).verifier ≠
      (generatePKCE (List.replicate 32 0) (fun _ => [])).verifier :=
  c7_pkce_roundtrip (List.range 32) (List.replicate 32 0) (fun _ => [])
    (by decide) (by decide) (by decide) (by decide) (by decide)

def tokensStored : OAuthTokenResponse :=
  { access_token := "cached-token", token_type := "Bearer"
    expires_in := some 3600, refresh_token := some "refresh-0" }

def storedEx : StoredSession :=
  { clientInfo := some clientEx, tokens := some tokensStored, expiresAt := some 1000600000 }

/-- C5: with a persisted, unexpired session on disk, authorize returns its
access token with no network activity, no write to the session file, and
only the in-memory session field updated; and this holds for every one of
any number of repeated invocations. -/
theorem c5_cache_hit_idempotent (c : OAuthConfig) (st : MgrState) (env : AuthEnv)
    (s : StoredSession) (t : OAuthTokenResponse)
    (hf : env.file = .record s)
    (hunexp : numTruthy s.expiresAt = true → env.now < s.expiresAt.getD 0)
    (ht : s.tokens = some t) :
    (authorize c st env).result = .ok t.access_token ∧
    (authorize c st env).effects = {} ∧
    (authorize c st env).state = { st with session := some s } ∧
    ∀ n : Nat, ∀ r ∈ authorizeN c env n st,
      r.result = .ok t.access_token ∧ r.effects = ({} : Effects) := by
  have hload : loadSession env.now env.file = some s := by
    rw [hf]
    simp only [loadSession]
    rw [if_neg]
    rintro ⟨h1, h2⟩
    exact absurd h2 (Nat.not_le.mpr (hunexp h1))
  have hsingle : ∀ st' : MgrState, authorize c st' env =
      { result := .ok t.access_token, state := { st' with session := some s }
        effects := {} } := by
    intro st'
    simp only [authorize, hload, ht]
  have hall : ∀ n (st' : MgrState), ∀ r ∈ authorizeN c env n st',
      r.result = .ok t.access_token ∧ r.effects = ({} : Effects) := by
    intro n
    induction n with
    | zero => intro st' r hr; simp [authorizeN] at hr
    | succ k ih =>
      intro st' r hr
      simp only [authorizeN, List.mem_cons] at hr
      rcases hr with h | h
      · subst h; rw [hsingle st']; exact ⟨rfl, rfl⟩
      · exact ih _ r h
  exact ⟨by rw [hsingle st], by rw [hsingle st], by rw [hsingle st], fun n => hall n st⟩

/-- Witness for C5 at a concrete persisted unexpired session. -/
theorem c5_cache_hit_idempotent_witness :
    (authorize cfgEx {} { envEx with file := .record storedEx }).result =
      .ok tokensStored.access_token ∧
    (authorize cfgEx {} { envEx with file := .record storedEx }).effects = {} ∧
    (authorize cfgEx {} { envEx with file := .record storedEx }).state =
      { ({} : MgrState) with session := some storedEx } := by
  have h := c5_cache_hit_idempotent cfgEx {} { envEx with file := .record storedEx }
    storedEx tokensStored rfl (by decide) rfl
  exact ⟨h.1, h.2.1, h.2.2.1⟩

/-- C4: with a held session whose expiresAt is a nonzero epoch instant e,
getAccessToken enters the refresh attempt exactly when e - 300000 ms has
been reached; in particular a session expiring 299 s from now triggers a
refresh attempt and one expiring 301 s from now is returned from cache
with no side effects at all. -/
theorem c4_expiry_boundary (c : OAuthConfig) (st : MgrState) (env : AuthEnv)
    (s : StoredSession) (t : OAuthTokenResponse) (e : Nat)
    (hs : st.session = some s) (he : s.expiresAt = some e) (he0 : e ≠ 0)
    (ht : s.tokens = some t) :
    ((getAccessToken c st env).effects.refreshAttempted = true ↔ e - 300000 ≤ env.now) ∧
    (e = env.now + 299000 → (getAccessToken c st env).effects.refreshAttempted = true) ∧
    (e = env.now + 301000 →
      getAccessToken c st env = { result := .ok t.access_token, state := st, effects := {} }) := by
  have hc : (numTruthy s.expiresAt = true ∧ s.expiresAt.getD 0 - 300000 ≤ env.now) ↔
      e - 300000 ≤ env.now := by
    simp [he, numTruthy, he0]
  have hiff : (getAccessToken c st env).effects.refreshAttempted = true ↔
      e - 300000 ≤ env.now := by
    by_cases hdue : e - 300000 ≤ env.now
    · simp only [getAccessToken, hs]
      rw [if_pos (hc.mpr hdue)]
      cases href : (refreshAccessToken st env.refresh).result with
      | ok tokens => simp [hdue]
      | error err => simp [hdue]
    · simp only [getAccessToken, hs]
      rw [if_neg (fun hcc => hdue (hc.mp hcc)), ht]
      simp [hdue]
  refine ⟨hiff, fun h299 => hiff.mpr (by omega), fun h301 => ?_⟩
  have hnot : ¬ (numTruthy s.expiresAt = true ∧ s.expiresAt.getD 0 - 300000 ≤ env.now) := by
    rw [hc]; omega
  simp only [getAccessToken, hs]
  rw [if_neg hnot, ht]

def storedNear : StoredSession := { storedEx with expiresAt := some 1000299000 }

def stNear : MgrState := { metadata := some metadataEx, session := some storedNear }

def storedFar : StoredSession := { storedEx with expiresAt := some 1000301000 }

def stFar : MgrState := { metadata := some metadataEx, session := some storedFar }

/-- Witness for C4: at now = 1000000000 ms, expiry 299 s away triggers the
refresh attempt, expiry 301 s away is a pure cache read. -/
theorem c4_expiry_boundary_witness :
    (getAccessToken cfgEx stNear envEx).effects.refreshAttempted = true ∧
    getAccessToken cfgEx stFar envEx =
      { result := .ok tokensStored.access_token, state := stFar, effects := {} } :=
  ⟨(c4_expiry_boundary cfgEx stNear envEx storedNear tokensStored 1000299000
      rfl rfl (by decide) rfl).2.1 (by decide),
    (c4_expiry_boundary cfgEx stFar envEx storedFar tokensStored 1000301000
      rfl rfl (by decide) rfl).2.2 (by decide)⟩

/-- C9: a session record with no expiresAt field is treated as never
expiring: loadSession returns it whatever the current time is, and
getAccessToken returns the cached access token with no refresh attempt
and no side effects whatever, at every current time. -/
theorem c9_no_expiry_never_refreshes (c : OAuthConfig) (st : MgrState) (env : AuthEnv)
    (s : StoredSession) (t : OAuthTokenResponse)
    (hf : env.file = .record s) (he : s.expiresAt = none) (ht : s.tokens = some t)
    (hs : st.session = some s) :
    loadSession env.now env.file = some s ∧
    getAccessToken c st env = { result := .ok t.access_token, state := st, effects := {} } := by
  have hload : loadSession env.now env.file = some s := by
    rw [hf]
    simp [loadSession, he, numTruthy]
  have hnot : ¬ (numTruthy s.expiresAt = true ∧ s.expiresAt.getD 0 - 300000 ≤ env.now) := by
    simp [he, numTruthy]
  refine ⟨hload, ?_⟩
  simp only [getAccessToken, hs]
  rw [if_neg hnot, ht]

def storedNoExp : StoredSession :=
  { clientInfo := some clientEx, tokens := some tokensStored, expiresAt := none }

def stNoExp : MgrState := { metadata := none, session := some storedNoExp }

/-- Witness for C9 at a concrete record without expiresAt, far in the
future of its creation. -/
theorem c9_no_expiry_never_refreshes_witness :
    loadSession ({ envEx with file := .record storedNoExp } : AuthEnv).now
      ({ envEx with file := .record storedNoExp } : AuthEnv).file = some storedNoExp ∧
    getAccessToken cfgEx stNoExp { envEx with file := .record storedNoExp } =
      { result := .ok tokensStored.access_token, state := stNoExp, effects := {} } :=
  c9_no_expiry_never_refreshes cfgEx stNoExp { envEx with file := .record storedNoExp }
    storedNoExp tokensStored rfl rfl rfl rfl

def storedSoon : StoredSession := { storedEx with expiresAt := some 1000120000 }

def stSoon : MgrState := { metadata := some metadataEx, session := some storedSoon }

def envSoon : AuthEnv :=
  { envEx with file := .record storedSoon, refresh := .httpError "invalid_grant" }

/-- C3 counterexample: the claim says a failed refresh always ends in a
full authorize returning a fresh token.  With a session expiring 120 s
from now (inside the 5-minute window, so a refresh is attempted) whose
refresh call gets a non-success response, getAccessToken falls back to
authorize, which reloads the still-unexpired record from disk and returns
the same old cached token: no listener is started, no discovery or
exchange happens, nothing is persisted, and the token is not fresh. -/
theorem c3_counterexample :
    (refreshAccessToken stSoon envSoon.refresh).result =
      .error (.error "Token refresh failed: invalid_grant") ∧
    (getAccessToken cfgEx stSoon envSoon).result = .ok "cached-token" ∧
    (getAccessToken cfgEx stSoon envSoon).effects.listenerStarted = false ∧
    (getAccessToken cfgEx stSoon envSoon).effects.discoveryCalled = false ∧
    (getAccessToken cfgEx stSoon envSoon).effects.exchangeCalled = false ∧
    (getAccessToken cfgEx stSoon envSoon).effects.savedRecord = none :=
  ⟨rfl, rfl, rfl, rfl, rfl, rfl⟩

/-- C3 amended: when a held session is inside the refresh window and the
refresh attempt throws (for any reason), getAccessToken does not surface
the refresh error: its outcome is exactly that of authorize (so the error
reaching the caller can only be a failure of that fallback), with only the
refresh side effects added; and whenever the persisted record does not
load (absent, corrupt or expired), that authorize fallback starts a full
authorization - discovery is performed. -/
theorem c3_refresh_fallback (c : OAuthConfig) (st : MgrState) (env : AuthEnv)
    (s : StoredSession) (err : JsError)
    (hs : st.session = some s)
    (hw1 : numTruthy s.expiresAt = true) (hw2 : s.expiresAt.getD 0 - 300000 ≤ env.now)
    (hfail : (refreshAccessToken st env.refresh).result = .error err) :
    getAccessToken c st env =
      { result := (authorize c st env).result
        state := (authorize c st env).state
        effects := { (authorize c st env).effects with
                     refreshAttempted := true
                     refreshEndpointCalled := (refreshAccessToken st env.refresh).endpointCalled } } ∧
    (loadSession env.now env.file = none → (authorize c st env).effects.discoveryCalled = true) := by
  constructor
  · simp only [getAccessToken, hs]
    rw [if_pos ⟨hw1, hw2⟩, hfail]
  · intro hnone
    simp only [authorize, hnone]
    split
    · rfl
    · split <;> rfl

def storedPast : StoredSession := { storedEx with expiresAt := some 999000000 }

def stPast : MgrState := { metadata := some metadataEx, session := some storedPast }

def envPast : AuthEnv :=
  { envEx with file := .record storedPast, refresh := .httpError "invalid_grant" }

/-- Witness for C3 at a concrete expired session whose refresh call gets a
non-success response: the fallback authorize performs discovery. -/
theorem c3_refresh_fallback_witness :
    getAccessToken cfgEx stPast envPast =
      { result := (authorize cfgEx stPast envPast).result
        state := (authorize cfgEx stPast envPast).state
        effects := { (authorize cfgEx stPast envPast).effects with
                     refreshAttempted := true
                     refreshEndpointCalled :=
                       (refreshAccessToken stPast envPast.refresh).endpointCalled } } ∧
    (authorize cfgEx stPast envPast).effects.discoveryCalled = true :=
  have h := c3_refresh_fallback cfgEx stPast envPast storedPast
    (.error "Token refresh failed: invalid_grant") rfl (by decide) (by decide) rfl
  ⟨h.1, h.2 rfl⟩

def envRegFail : AuthEnv := { envEx with registration := .httpError "err42" }

def genericRegMsg : String :=
  "OAuth client registration failed and no static client info provided"

/-- C8 counterexample: the claim says the failure propagating from
authorize carries the server error text.  With the registration endpoint
answering non-success with body err42, registerClient does throw an error
carrying err42, but authorize catches it and throws a generic error whose
text does not contain the server text (not even the digit 4). -/
theorem c8_counterexample :
    (registerClient metadataEx envRegFail.registration).result =
      .error (.error "Client registration failed: err42") ∧
    (authorize cfgEx {} envRegFail).result = .error (.error genericRegMsg) ∧
    ¬ ("err42".data <:+: genericRegMsg.data) :=
  ⟨rfl, rfl, by decide⟩

/-- C8 amended: on a non-success registration response, when the metadata
carries a truthy registration endpoint (so the request is actually made),
the inner registerClient failure carries the server error text, but what
propagates to the caller of authorize is the generic registration-failure
error. -/
theorem c8_registration_failure (c : OAuthConfig) (st : MgrState) (env : AuthEnv)
    (m : OAuthMetadata) (body : String)
    (hm : strTruthy m.registration_endpoint = true)
    (hreg : env.registration = .httpError body)
    (hstatic : c.staticClientInfo = none)
    (hload : loadSession env.now env.file = none) :
    (registerClient m env.registration).result =
      .error (.error ("Client registration failed: " ++ body)) ∧
    (authorize c st env).result = .error (.error genericRegMsg) := by
  constructor
  · rw [hreg]
    simp only [registerClient, hm]
    rfl
  · simp only [authorize, hload, hstatic, hreg]
    have hall : ∀ md : OAuthMetadata, ∃ e,
        (registerClient md (FetchOutcome.httpError body)).result = Except.error e := by
      intro md
      rcases Bool.eq_false_or_eq_true (strTruthy md.registration_endpoint) with hmd | hmd
      · exact ⟨.error ("Client registration failed: " ++ body),
          by simp [registerClient, hmd]⟩
      · exact ⟨.error "Dynamic client registration not supported by server",
          by simp [registerClient, hmd]⟩
    obtain ⟨e, he⟩ :=
      hall (discoverMetadata c { st with session := none } env.discovery).1
    rw [he]
    rfl

/-- Witness for C8 at the concrete non-success registration response. -/
theorem c8_registration_failure_witness :
    (registerClient metadataEx envRegFail.registration).result =
      .error (.error ("Client registration failed: " ++ "err42")) ∧
    (authorize cfgEx {} envRegFail).result = .error (.error genericRegMsg) :=
  c8_registration_failure cfgEx {} envRegFail metadataEx "err42"
    (by decide) rfl rfl rfl

/-- C10: after a cache-hit authorize (session loaded from disk), the
metadata field is still unset, so refreshAccessToken from the resulting
state throws the no-active-session error without calling the token
endpoint; consequently, once the expiry is inside the 5-minute window,
getAccessToken never reaches the refresh endpoint and its outcome is
exactly that of the authorize fallback. -/
theorem c10_cache_hit_blocks_refresh (c : OAuthConfig) (st : MgrState) (env : AuthEnv)
    (s : StoredSession) (t : OAuthTokenResponse) (e : Nat)
    (hm0 : st.metadata = none)
    (hload : loadSession env.now env.file = some s)
    (ht : s.tokens = some t) :
    (authorize c st env).state.metadata = none ∧
    (refreshAccessToken (authorize c st env).state env.refresh).result =
      .error (.error "Cannot refresh token: no active session") ∧
    (refreshAccessToken (authorize c st env).state env.refresh).endpointCalled = false ∧
    (s.expiresAt = some e → e ≠ 0 → e - 300000 ≤ env.now →
      (getAccessToken c (authorize c st env).state env).result =
        (authorize c (authorize c st env).state env).result ∧
      (getAccessToken c (authorize c st env).state env).effects.refreshEndpointCalled = false) := by
  have hauth : authorize c st env =
      { result := .ok t.access_token, state := { st with session := some s }
        effects := {} } := by
    simp only [authorize, hload, ht]
  have hstate : (authorize c st env).state = { st with session := some s } := by
    rw [hauth]
  have hmeta : ({ st with session := some s } : MgrState).metadata = none := hm0
  have hrf : refreshAccessToken { st with session := some s } env.refresh =
      { result := .error (.error "Cannot refresh token: no active session")
        endpointCalled := false } := by
    simp only [refreshAccessToken]
    rw [show ({ st with session := some s } : MgrState).metadata = none from hm0]
  refine ⟨by rw [hstate]; exact hm0, by rw [hstate, hrf], by rw [hstate, hrf], ?_⟩
  intro he he0 hdue
  rw [hstate]
  have hses : ({ st with session := some s } : MgrState).session = some s := rfl
  simp only [getAccessToken, hses]
  rw [if_pos ⟨by simp [he, numTruthy, he0], by simpa [he] using hdue⟩, hrf]
  exact ⟨rfl, rfl⟩

def stEmpty : MgrState := {}

def envSoonB : AuthEnv := { envEx with file := .record storedSoon }

/-- Witness for C10 at a concrete cached session expiring 120 s from now. -/
theorem c10_cache_hit_blocks_refresh_witness :
    (authorize cfgEx stEmpty envSoonB).state.metadata = none ∧
    (refreshAccessToken (authorize cfgEx stEmpty envSoonB).state envSoonB.refresh).result =
      .error (.error "Cannot refresh token: no active session") ∧
    (refreshAccessToken (authorize cfgEx stEmpty envSoonB).state envSoonB.refresh).endpointCalled
      = false ∧
    (getAccessToken cfgEx (authorize cfgEx stEmpty envSoonB).state envSoonB).result =
      (authorize cfgEx (authorize cfgEx stEmpty envSoonB).state envSoonB).result ∧
    (getAccessToken cfgEx (authorize cfgEx stEmpty envSoonB).state envSoonB).effects.refreshEndpointCalled
      = false :=
  have h := c10_cache_hit_blocks_refresh cfgEx stEmpty envSoonB storedSoon tokensStored
    1000120000 rfl (by decide) rfl
  ⟨h.1, h.2.1, h.2.2.1, (h.2.2.2 rfl (by decide) (by decide)).1,
    (h.2.2.2 rfl (by decide) (by decide)).2⟩

end Mcp
